import Mathlib

/-!
# Verification of the AI-art job-lifecycle reconciliation core

Shallow embedding of the job/order state machine, webhook ingestion,
status polling, payload-builder helpers and the mock store of the
`ai-art-upload` repository, together with proofs of the frozen claims
about them.

Sources embedded:
* `src/lib/runpod.ts` — seed/size/template helpers, status mapping and
  result-URL extraction;
* the RunPod webhook route (`verifyRunpodWebhookToken`, `POST`);
* `src/app/api/jobs/[runpodId]/route.ts` — the status poller `GET`;
* `src/app/api/webhooks/shopify/route.ts` — the deduplicated downstream
  webhook `POST`;
* `src/lib/poc-mock-store.ts` — the in-memory mock job store.
-/

namespace AiArt

/-! ### Character-list string primitives

The JS string operations are modelled structurally over the character
list of a `String`, mirroring their JS semantics (ASCII case folding,
UTF-8 byte sizes as produced by `Buffer.from`). -/

/-- JS `String.prototype.trim`: strip leading and trailing whitespace. -/
def jsTrim (s : String) : String :=
  String.mk
    (((s.data.dropWhile Char.isWhitespace).reverse.dropWhile
        Char.isWhitespace).reverse)

/-- JS `toLowerCase` (ASCII folding, which is all the source compares). -/
def lowerStr (s : String) : String :=
  String.mk (s.data.map Char.toLower)

/-- JS `toUpperCase` (ASCII folding, which is all the source compares). -/
def upperStr (s : String) : String :=
  String.mk (s.data.map Char.toUpper)

/-- JS `String.prototype.startsWith`. -/
def startsWithStr (s pre : String) : Bool :=
  pre.data.isPrefixOf s.data

/-- JS `String.prototype.endsWith`. -/
def endsWithStr (s suf : String) : Bool :=
  suf.data.isSuffixOf s.data

/-- Whether `pat` occurs as a contiguous run inside `cs`. -/
def containsList (pat : List Char) : List Char → Bool
  | [] => pat.isEmpty
  | c :: rest => pat.isPrefixOf (c :: rest) || containsList pat rest

/-- `containsSub s pat` models the JS regex test for a fixed substring
`pat` occurring anywhere in `s` (used for the `(image|img|...)` style
alternation patterns after both sides are lowercased). -/
def containsSub (s pat : String) : Bool :=
  containsList pat.data s.data

/-- The UTF-8 byte size of one character, as encoded by `Buffer.from`. -/
def utf8CharSize (c : Char) : Nat :=
  if c.toNat < 0x80 then 1
  else if c.toNat < 0x800 then 2
  else if c.toNat < 0x10000 then 3
  else 4

/-- `Buffer.byteLength(s, 'utf8')` / `Buffer.from(s).length`. -/
def utf8Len (s : String) : Nat :=
  (s.data.map utf8CharSize).sum

/-- A JSON value as produced by `JSON.parse`: the duck-typed payloads the
webhook and poller receive.  Numbers are modelled as `Int`; no embedded
operation inspects numeric values (only strings can be asset URLs, ids or
statuses), so fractional parts are irrelevant. -/
inductive Json where
  | null
  | bool (b : Bool)
  | num (n : Int)
  | str (s : String)
  | arr (items : List Json)
  | obj (fields : List (String × Json))
deriving Inhabited

/-- Field lookup on a parsed JSON object: the first binding wins, as in a
JS object produced by `JSON.parse` (duplicate keys cannot survive
parsing, so objects are association lists with distinct keys). -/
def lookupField (fields : List (String × Json)) (key : String) : Option Json :=
  match fields with
  | [] => none
  | (k, v) :: rest => if k = key then some v else lookupField rest key

/-- Models the case-insensitive JS regex test
`^data:<kind>\/[a-z0-9.+-]+;base64,` from `tryAssetUrl` / `tryUrl`
(`src/lib/runpod.ts`, webhook route): after lowercasing, the string must
start with `data:<kind>/`, then one or more characters from
`[a-z0-9.+-]`, then `;base64,`. -/
def dataUriTest (kind s : String) : Bool :=
  let lower := (lowerStr s).data
  let pre := ("data:" ++ kind ++ "/").data
  if pre.isPrefixOf lower then
    let rest := lower.drop pre.length
    let sub := rest.takeWhile fun c =>
      c.isLower || c.isDigit || c = '.' || c = '+' || c = '-'
    decide (sub.length > 0) && ";base64,".data.isPrefixOf (rest.drop sub.length)
  else
    false

/-- Models `new URL(s)` restricted to the `http:`/`https:` protocols,
followed by `.toString()`, as used by `tryAssetUrl`.  A string is
accepted when it starts with `http://` or `https://` (scheme matched
case-insensitively, as the WHATWG parser lowercases the scheme) followed
by a nonempty remainder (an empty host makes `new URL` throw).  The
accepted string is returned unchanged: on already-normalized URLs —
which is all the source ever feeds back into state — `toString` is the
identity. -/
def parseHttpUrl (s : String) : Option String :=
  let lower := lowerStr s
  if (startsWithStr lower "http://" && decide (s.length > 7)) ||
      (startsWithStr lower "https://" && decide (s.length > 8)) then
    some s
  else
    none

/-- `tryAssetUrl` from `src/lib/runpod.ts` (identical local copy `tryUrl`
in the RunPod webhook route), on an already-trimmed-or-not string:
reject empty/non-string values, accept `data:image/...;base64,` and
`data:video/...;base64,` URIs and absolute http(s) URLs. -/
def tryAssetUrlStr (s : String) : Option String :=
  if jsTrim s = "" then
    none
  else
    let trimmed := jsTrim s
    if dataUriTest "image" trimmed then some trimmed
    else if dataUriTest "video" trimmed then some trimmed
    else parseHttpUrl trimmed

/-- `tryAssetUrl` on an arbitrary JSON value: non-strings are rejected by
the `typeof value !== 'string'` guard. -/
def tryAssetUrl (v : Json) : Option String :=
  match v with
  | .str s => tryAssetUrlStr s
  | _ => none

/-- Characters that terminate a URL token in the regex
`https?:\/\/[^\s"')]+` of `collectUrlsFromText`. -/
def urlStopChar (c : Char) : Bool :=
  c.isWhitespace || c = '"' || c = '\'' || c = ')'

/-- Whether the character list starts with `http://` or `https://`
(the anchored part of the regex `https?:\/\/`, which is case-sensitive). -/
def hasUrlStart (cs : List Char) : Bool :=
  "http://".toList.isPrefixOf cs || "https://".toList.isPrefixOf cs

theorem hasUrlStart_head {c : Char} {rest : List Char}
    (h : hasUrlStart (c :: rest) = true) : c = 'h' := by
  simp only [hasUrlStart, Bool.or_eq_true] at h
  rcases h with h | h <;>
    · simp only [String.toList] at h
      rcases List.isPrefixOf_iff_prefix.mp h with ⟨t, ht⟩
      cases ht
      rfl

/-- Models `text.match(/https?:\/\/[^\s"')]+/g)`: scan left to right; at
each position where `http://` or `https://` starts, take the maximal run
of non-stop characters as one match and resume after it (matches do not
overlap, exactly as with a global regex). -/
def scanUrls (cs : List Char) : List String :=
  match cs with
  | [] => []
  | c :: rest =>
    if h : hasUrlStart (c :: rest) then
      let tok := (c :: rest).takeWhile fun ch => !urlStopChar ch
      String.mk tok :: scanUrls ((c :: rest).drop tok.length)
    else
      scanUrls rest
termination_by cs.length
decreasing_by
  · have hc : c = 'h' := hasUrlStart_head h
    subst hc
    have hkeep : (!urlStopChar 'h') = true := by decide
    simp only [List.takeWhile, hkeep, List.length_cons, List.drop_succ_cons,
      List.length_drop]
    omega
  · simp

/-- The extension test `\.(png|jpe?g|webp|avif|gif)(\?|$)/i` (resp. the
video list): after lowercasing, some `.<ext>` occurs immediately before a
`?` or at the end of the string. -/
def extMatches (exts : List String) (url : String) : Bool :=
  let lower := lowerStr url
  exts.any fun e =>
    endsWithStr lower ("." ++ e) || containsSub lower ("." ++ e ++ "?")

def imageExts : List String := ["png", "jpeg", "jpg", "webp", "avif", "gif"]

def videoExts : List String := ["mp4", "mov", "webm", "mkv"]

/-- `collectUrlsFromText` (`src/lib/runpod.ts`; identical local copy
`collectUrlsFromString` in the webhook route): regex-scan the text for
http(s) tokens, validate each through `tryAssetUrl`, and keep the first
match per category by file-extension suffix. -/
def collectUrlsFromText (text : String) : Option String × Option String :=
  let urls := scanUrls text.toList
  urls.foldl
    (fun (acc : Option String × Option String) candidate =>
      match tryAssetUrlStr candidate with
      | none => acc
      | some url =>
        let imageUrl :=
          if acc.1.isNone && extMatches imageExts url then some url else acc.1
        let videoUrl :=
          if acc.2.isNone && extMatches videoExts url then some url else acc.2
        (imageUrl, videoUrl))
    (none, none)

mutual
/-- `findFirstAssetUrlByKeys` (`src/lib/runpod.ts`; identical local copy
`findFirstUrlByKeys` in the webhook route).  A direct string match is
accepted before any key filtering; arrays are searched in order; objects
are searched first through entries whose (lowercased) key matches the
pattern, then through all values.

The source threads a `visited` set purely as cycle protection.  On the
tree-shaped values produced by `JSON.parse` it is semantically inert:
object/array identities never repeat in a parsed tree, and a primitive
is only ever skipped after an earlier occurrence that failed
`tryAssetUrl` (had it succeeded, the whole search would already have
returned), so the skip returns the same `null` a re-check would.  The
embedding therefore omits it. -/
def findFirstAssetUrlByKeys (pat : String → Bool) (v : Json) : Option String :=
  match tryAssetUrl v with
  | some u => some u
  | none =>
    match v with
    | .arr items => findAssetInList pat items
    | .obj fields =>
      match findAssetInKeyed pat fields with
      | some u => some u
      | none => findAssetInValues pat fields
    | _ => none

/-- The array loop of `findFirstAssetUrlByKeys`. -/
def findAssetInList (pat : String → Bool) (items : List Json) : Option String :=
  match items with
  | [] => none
  | item :: rest =>
    match findFirstAssetUrlByKeys pat item with
    | some u => some u
    | none => findAssetInList pat rest

/-- The keyed pass: only entries whose lowercased key matches the pattern. -/
def findAssetInKeyed (pat : String → Bool) (fields : List (String × Json)) :
    Option String :=
  match fields with
  | [] => none
  | (k, v) :: rest =>
    if pat (lowerStr k) then
      match findFirstAssetUrlByKeys pat v with
      | some u => some u
      | none => findAssetInKeyed pat rest
    else
      findAssetInKeyed pat rest

/-- The fallback pass over all object values. -/
def findAssetInValues (pat : String → Bool) (fields : List (String × Json)) :
    Option String :=
  match fields with
  | [] => none
  | (_, v) :: rest =>
    match findFirstAssetUrlByKeys pat v with
    | some u => some u
    | none => findAssetInValues pat rest
end

/-- The image key pattern `/(image|img|output_image|preview|result)/i`,
applied to an already-lowercased key (`output_image` is subsumed by
`image`). -/
def imageKeyPat (k : String) : Bool :=
  containsSub k "image" || containsSub k "img" ||
    containsSub k "preview" || containsSub k "result"

/-- The video key pattern `/(video|timelapse|time_lapse|output_video)/i`,
applied to an already-lowercased key (`output_video` is subsumed by
`video`). -/
def videoKeyPat (k : String) : Bool :=
  containsSub k "video" || containsSub k "timelapse" ||
    containsSub k "time_lapse"

/-- `extractRunpodOutputUrls` (`src/lib/runpod.ts`; identical local copy
`extractOutputUrls` in the webhook route): keyed-structure search for the
image and video categories, then — only when the payload is itself a
string — fall back per category to the regex text scan. -/
def extractRunpodOutputUrls (message : Json) : Option String × Option String :=
  let imageFromKeys := findFirstAssetUrlByKeys imageKeyPat message
  let videoFromKeys := findFirstAssetUrlByKeys videoKeyPat message
  match message with
  | .str s =>
    let fromText := collectUrlsFromText s
    (imageFromKeys <|> fromText.1, videoFromKeys <|> fromText.2)
  | _ => (imageFromKeys, videoFromKeys)

/-! ## Status mapping, seed and size-limit helpers (`src/lib/runpod.ts`) -/

/-- The shared order/job status enum
(`PENDING → PROCESSING → {SUCCEEDED, FAILED}`). -/
inductive OrderStatus where
  | PENDING
  | PROCESSING
  | SUCCEEDED
  | FAILED
deriving DecidableEq, Repr, Inhabited

/-- `mapRunpodStatusToOrderStatus`: normalize an unknown provider status
by trimming/uppercasing when it is a string (empty otherwise) and map it
through the fixed table; unrecognized statuses map to `none`. -/
def mapRunpodStatusToOrderStatus (status : Option Json) : Option OrderStatus :=
  let normalized :=
    match status with
    | some (.str s) => upperStr (jsTrim s)
    | _ => ""
  if normalized = "" then none
  else if normalized = "COMPLETED" then some .SUCCEEDED
  else if normalized = "FAILED" || normalized = "CANCELLED" ||
      normalized = "TIMED_OUT" then some .FAILED
  else if normalized = "IN_QUEUE" || normalized = "IN_PROGRESS" ||
      normalized = "INITIALIZING" || normalized = "QUEUED" then
    some .PROCESSING
  else none

/-- `Number.isSafeInteger` on an integer-valued input: magnitude at most
`2^53 - 1`.  (A non-integer JS number also fails the check; the embedding
ranges over `Int`, so `n` here is the integer value of an
integer-valued input.) -/
def isSafeInteger (n : Int) : Bool :=
  n.natAbs ≤ 9007199254740991

/-- `randomInt(lo, hi)` from `node:crypto` returns a uniformly random
integer in `[lo, hi)`.  The embedding takes the entropy as an explicit
argument and realizes the range contract by reduction modulo the range
size. -/
def randomInt (lo hi entropy : Nat) : Nat :=
  lo + entropy % (hi - lo)

/-- `normalizeSeed` (`src/lib/runpod.ts` lines 121-127): a caller-supplied
non-negative safe integer is returned unchanged; anything else (absent,
negative, or not a safe integer) is replaced by
`randomInt(0, 2_147_483_647)`. -/
def normalizeSeed (seed : Option Int) (entropy : Nat) : Int :=
  match seed with
  | some s =>
    if isSafeInteger s && decide (s ≥ 0) then s
    else (randomInt 0 2147483647 entropy : Nat)
  | none => (randomInt 0 2147483647 entropy : Nat)

/-- The numeric value of a decimal digit run. -/
def digitsToNat (digits : List Char) : Nat :=
  digits.foldl (fun n c => n * 10 + (c.toNat - 48)) 0

/-- `Number.parseInt(s, 10)` on an already-trimmed string: an optional
sign followed by the longest (possibly empty) digit prefix; `NaN` (here
`none`) when no digits are present. -/
def jsParseInt10 (s : String) : Option Int :=
  let (sign, digits) :=
    match s.toList with
    | '-' :: rest => ((-1 : Int), rest)
    | '+' :: rest => ((1 : Int), rest)
    | cs => ((1 : Int), cs)
  let digitChars := digits.takeWhile Char.isDigit
  if digitChars.isEmpty then none
  else
    some (sign * digitsToNat digitChars)

/-- The resolved request-byte ceiling of `ensureRunRequestSizeLimit`
(`src/lib/runpod.ts` lines 244-248): parse the trimmed override value
with `parseInt(_, 10)`; any unset, empty, unparsable or non-positive
result falls back to `10 * 1024 * 1024`. -/
def resolveRunMaxRequestBytes (envValue : Option String) : Int :=
  let fallbackMax : Int := 10 * 1024 * 1024
  let rawMax := jsTrim (envValue.getD "")
  let parsed := if rawMax ≠ "" then jsParseInt10 rawMax else none
  match parsed with
  | some n => if n > 0 then n else fallbackMax
  | none => fallbackMax

/-- `ensureRunRequestSizeLimit` (`src/lib/runpod.ts` lines 244-256): hard
error when the UTF-8 byte length of the serialized request body exceeds
the ceiling; the message instructs switching to the URL (reference-mode)
transport. -/
def ensureRunRequestSizeLimit (envValue : Option String) (requestBody : String) :
    Except String Unit :=
  let max := resolveRunMaxRequestBytes envValue
  let actual : Int := utf8Len requestBody
  if actual > max then
    .error
      (s!"RunPod /run payload is too large ({actual} bytes > {max}). " ++
        "Reduce image size or set RUNPOD_IMAGE_TRANSPORT=url.")
  else
    .ok ()

/-- Outcome of the tail of `submitJob` (`src/lib/runpod.ts` lines
858-885) in non-mock mode, from the point the request body has been
serialized: the size guard runs strictly before the provider `/run`
request, so a guard failure propagates as the thrown error and no
provider call happens.  `providerResponse` stands for the
already-decoded provider reply used when the call does go out. -/
structure SubmitStageOutcome where
  result : Except String (List (String × Json))
  providerCalled : Bool
deriving Inhabited

/-- The serialization-then-submit stage of `submitJob`: check
`ensureRunRequestSizeLimit(requestBody)`, then issue the provider
request. -/
def submitRunStage (envMaxBytes : Option String) (requestBody : String)
    (providerResponse : List (String × Json)) : SubmitStageOutcome :=
  match ensureRunRequestSizeLimit envMaxBytes requestBody with
  | .error e => { result := .error e, providerCalled := false }
  | .ok _ => { result := .ok providerResponse, providerCalled := true }

/-! ## Workflow template resolution (`src/lib/runpod.ts`) -/

def DEFAULT_WORKFLOW_FILE_NAME : String := "workflow_api.json"

/-- The `STYLE_WORKFLOW_FILES` record. -/
def styleWorkflowFiles (key : String) : Option String :=
  if key = "sketch" then some "workflow_api_sketch.json"
  else if key = "watercolor" then some "workflow_api_watercolor.json"
  else if key = "oil" then some "workflow_api_oil.json"
  else none

/-- `normalizeStyleKey`: trim, lowercase, and delete every run of `-`,
`_` or whitespace (the JS replacement of `/[-_\s]+/g` by the empty
string deletes exactly those characters). -/
def normalizeStyleKey (style : String) : String :=
  String.mk
    ((lowerStr (jsTrim style)).data.filter fun c =>
      !(c = '-' || c = '_' || c.isWhitespace))

/-- The `preferred` file computed by `resolveWorkflowCandidates`
(`src/lib/runpod.ts` lines 419-441): alias groups map to the three
style files, then a direct record lookup on the normalized key. -/
def preferredWorkflowFile (style : String) : Option String :=
  let normalized := normalizeStyleKey style
  let preferredAlias : Option String :=
    if normalized = "sketch" || normalized = "pencil" ||
        normalized = "lineart" then
      styleWorkflowFiles "sketch"
    else if normalized = "watercolor" || normalized = "watercolour" ||
        normalized = "aquarelle" then
      styleWorkflowFiles "watercolor"
    else if normalized = "oil" || normalized = "oilpaint" ||
        normalized = "oilpainting" then
      styleWorkflowFiles "oil"
    else
      none
  match preferredAlias with
  | some p => some p
  | none => styleWorkflowFiles normalized

/-- `resolveWorkflowCandidates` (`src/lib/runpod.ts` lines 419-448): a
style-specific candidate is tried before the default file, and an
unknown style yields the default file alone. -/
def resolveWorkflowCandidates (style : String) : List String :=
  match preferredWorkflowFile style with
  | none => [DEFAULT_WORKFLOW_FILE_NAME]
  | some p =>
    if p = DEFAULT_WORKFLOW_FILE_NAME then [DEFAULT_WORKFLOW_FILE_NAME]
    else [p, DEFAULT_WORKFLOW_FILE_NAME]

/-- What reading and JSON-parsing one template file can yield: the file
is absent (`ENOENT`), present but not valid JSON (any non-`ENOENT`
failure of `readFile` + `JSON.parse`), or parsed content. -/
inductive FileResult where
  | absent
  | invalid (err : String)
  | ok (content : Json)

/-- The candidate loop of `loadWorkflowTemplate`: `ENOENT` continues to
the next candidate; any other failure records a parse error and breaks;
a successful parse returns.  `none` means the loop fell through with no
parse error recorded. -/
def loadFromCandidates (fs : String → FileResult) :
    List String → Option (Except String Json)
  | [] => none
  | fileName :: rest =>
    match fs fileName with
    | .ok content => some (.ok content)
    | .invalid e =>
      some (.error s!"Invalid or unreadable JSON in {fileName}: {e}")
    | .absent => loadFromCandidates fs rest

/-- `loadWorkflowTemplate` (`src/lib/runpod.ts` lines 460-487) over an
abstract file system `fs`: try the candidates in order; falling
through all of them without a parse error is the final
`Failed to read workflow template` error. -/
def loadWorkflowTemplate (fs : String → FileResult) (style : String) :
    Except String Json :=
  let candidates := resolveWorkflowCandidates style
  match loadFromCandidates fs candidates with
  | some r => r
  | none =>
    .error
      ("Failed to read workflow template. Tried: " ++
        String.intercalate ", " candidates)

/-! ## The order/job/event store

The two persistent tables plus the webhook-event dedup ledger, modelled
as row lists.  `orders.id`, `orders.shopify_order_id`, `jobs.runpod_id`
and `webhook_events.event_id` are the unique keys; SQL updates become
keyed list maps and `RETURNING` becomes the filtered row list in table
order. -/

structure OrderRow where
  id : String
  shopifyOrderId : String
  imageUrl : String
  style : String
  status : OrderStatus
deriving DecidableEq, Repr, Inhabited

structure JobRow where
  runpodId : String
  orderId : String
  outputImageUrl : Option String
  outputVideoUrl : Option String
deriving DecidableEq, Repr, Inhabited

structure Db where
  orders : List OrderRow
  jobs : List JobRow
  webhookEvents : List (String × String)
deriving DecidableEq, Repr, Inhabited

/-! ## RunPod webhook ingestion (webhook route `POST`) -/

/-- `verifyRunpodWebhookToken` (webhook route lines 34-48) on the
configured secret and the received token (the missing-parameter case
arrives as the empty string).  `Buffer.from` yields the UTF-8 bytes, so
the length guard compares UTF-8 byte sizes, and `timingSafeEqual` on
equal-length UTF-8 buffers is exactly string equality. -/
def verifyRunpodWebhookToken (secret token : String) : Bool :=
  if utf8Len secret = 0 || utf8Len secret ≠ utf8Len token then
    false
  else
    token = secret

/-- Whether the handler reaches the `timingSafeEqual` call at all: the
zero-length and length-mismatch guards return before any comparison
attempt. -/
def runpodTokenComparisonAttempted (secret token : String) : Bool :=
  !(utf8Len secret = 0 || utf8Len secret ≠ utf8Len token)

/-- The parsed RunPod webhook payload (`RunpodWebhookPayload`): each
declared field is either absent or an arbitrary JSON value, since the
runtime payload is unchecked. -/
structure RunpodWebhookPayload where
  id : Option Json
  jobId : Option Json
  status : Option Json
  output : Option Json
deriving Inhabited

/-- `extractRunpodId` (webhook route lines 152-160): first of
`payload.id`, `payload.jobId` that is a string with nonempty trim, else
a thrown error. -/
def extractRunpodId (p : RunpodWebhookPayload) : Except String String :=
  let pick : Option Json → Option String := fun c =>
    match c with
    | some (.str s) => if jsTrim s ≠ "" then some s else none
    | _ => none
  match pick p.id with
  | some s => .ok s
  | none =>
    match pick p.jobId with
    | some s => .ok s
    | none => .error "Missing runpod id in webhook payload"

/-- One metafield write-back attempt actually issued to Shopify
(`writeShopifyAiArtMetafields` past its early returns). -/
structure MetafieldWriteback where
  shopifyOrderId : String
  status : String
  runpodId : String
  imageUrl : Option String
  videoUrl : Option String
deriving DecidableEq, Repr

/-- `writeShopifyAiArtMetafields` (webhook route lines 187-259) modelled
by the downstream mutations it issues: none when the Shopify
integration is disabled or the order reference is empty or a
synthesized `MANUAL-` reference, else exactly the one `metafieldsSet`
call. -/
def writeShopifyAiArtMetafields (shopifyEnabled : Bool)
    (wb : MetafieldWriteback) : List MetafieldWriteback :=
  if !shopifyEnabled then []
  else if wb.shopifyOrderId = "" || startsWithStr wb.shopifyOrderId "MANUAL-" then []
  else [wb]

/-- Result of one RunPod-webhook `POST`: HTTP status, the store after
the handling, and the downstream write-backs it issued. -/
structure RunpodWebhookOutcome where
  httpStatus : Nat
  db : Db
  writebacks : List MetafieldWriteback
deriving DecidableEq, Repr

/-- `payload.output?.message`: defined only when `output` is an object
carrying the field; every other shape (absent, `null`, array, scalar)
reads as `undefined`, which the extraction treats like `null`. -/
def outputMessageField (output : Option Json) : Json :=
  match output with
  | some (.obj fields) => (lookupField fields "message").getD .null
  | _ => .null

/-- The `UPDATE jobs SET output_image_url = COALESCE($2, output_image_url),
output_video_url = COALESCE($3, output_video_url) WHERE runpod_id = $1`
statement, issued verbatim by both the webhook COMPLETED branch and the
poller persistence step: a `null` incoming value keeps the stored one. -/
def coalesceJobUpdate (runpodId : String) (imageUrl videoUrl : Option String)
    (jobs : List JobRow) : List JobRow :=
  jobs.map fun j =>
    if j.runpodId = runpodId then
      { j with
        outputImageUrl := imageUrl <|> j.outputImageUrl
        outputVideoUrl := videoUrl <|> j.outputVideoUrl }
    else j

/-- The `status.toUpperCase()` normalization of the webhook payload
(empty when `payload.status` is not a string). -/
def webhookStatusUpper (payload : RunpodWebhookPayload) : String :=
  match payload.status with
  | some (.str s) => upperStr s
  | _ => ""

/-- The failure branch of the webhook handler (lines 272-307):
`UPDATE orders o SET status = 'FAILED' FROM jobs j WHERE j.order_id =
o.id AND j.runpod_id = $1 RETURNING ...`, then a best-effort FAILED
write-back for the first returned row. -/
def runpodFailedTransition (shopifyEnabled : Bool) (runpodId : String)
    (db : Db) : RunpodWebhookOutcome :=
  let matched : OrderRow → Bool := fun o =>
    db.jobs.any fun j => j.orderId = o.id && j.runpodId = runpodId
  let orders' := db.orders.map fun o =>
    if matched o then { o with status := .FAILED } else o
  let returned := orders'.filter matched
  let wbs :=
    match returned.head? with
    | some row =>
      writeShopifyAiArtMetafields shopifyEnabled
        ⟨row.shopifyOrderId, "FAILED", runpodId, none, none⟩
    | none => []
  ⟨200, { db with orders := orders' }, wbs⟩

/-- The COMPLETED branch of the webhook handler (lines 313-367): fill
the job's output URLs with COALESCE semantics, then unconditionally set
the owning order to SUCCEEDED and issue the best-effort write-back. -/
def runpodCompletedTransition (shopifyEnabled : Bool) (runpodId : String)
    (imageUrl videoUrl : Option String) (db : Db) : RunpodWebhookOutcome :=
  let jobs' := coalesceJobUpdate runpodId imageUrl videoUrl db.jobs
  let returnedOrderIds :=
    (jobs'.filter fun j => j.runpodId = runpodId).map (·.orderId)
  match returnedOrderIds.head? with
  | none => ⟨200, { db with jobs := jobs' }, []⟩
  | some orderId =>
    if orderId = "" then
      -- `throw new Error('Missing order_id after updating job')`:
      -- the job update has already been committed.
      ⟨500, { db with jobs := jobs' }, []⟩
    else
      -- UPDATE orders o SET status = 'SUCCEEDED' WHERE o.id = $1 RETURNING
      let orders' := db.orders.map fun o =>
        if o.id = orderId then { o with status := .SUCCEEDED } else o
      let returnedOrders := orders'.filter fun o => o.id = orderId
      let wbs :=
        match returnedOrders.head? with
        | some row =>
          writeShopifyAiArtMetafields shopifyEnabled
            ⟨row.shopifyOrderId, "SUCCEEDED", runpodId, imageUrl, videoUrl⟩
        | none => []
      ⟨200, { db with orders := orders', jobs := jobs' }, wbs⟩

/-- The RunPod webhook `POST` handler (webhook route lines 261-372).
`token` is the value of the configured query parameter (absent when the
caller sent none).  Thrown errors (missing secret, missing id) are
caught by the surrounding `try` and become 500 responses with the store
untouched. -/
def handleRunpodWebhook (secret : String) (shopifyEnabled : Bool)
    (token : Option String) (payload : RunpodWebhookPayload) (db : Db) :
    RunpodWebhookOutcome :=
  if secret = "" then
    -- `getRequiredEnv('RUNPOD_WEBHOOK_SECRET')` throws → caught → 500.
    ⟨500, db, []⟩
  else if !verifyRunpodWebhookToken secret (token.getD "") then
    ⟨401, db, []⟩
  else
    let statusStr := webhookStatusUpper payload
    match extractRunpodId payload with
    | .error _ => ⟨500, db, []⟩
    | .ok runpodId =>
      if statusStr = "FAILED" || statusStr = "CANCELLED" ||
          statusStr = "TIMED_OUT" then
        runpodFailedTransition shopifyEnabled runpodId db
      else if statusStr ≠ "COMPLETED" then
        ⟨200, db, []⟩
      else
        let extracted := extractRunpodOutputUrls (outputMessageField payload.output)
        runpodCompletedTransition shopifyEnabled runpodId
          extracted.1 extracted.2 db

/-! ## Status poller (`src/app/api/jobs/[runpodId]/route.ts`, `GET`) -/

/-- The decoded provider status reply as accessed by the poller: its
`status` field and its `output` field, each an arbitrary JSON value or
absent. -/
structure ProviderStatusResponse where
  status : Option Json
  output : Option Json
deriving Inhabited

/-- The argument handed to `extractRunpodOutputUrls` by the poller:
`runpodOutput?.message ?? runpodOutput ?? runpodStatus.output ?? null`,
where `runpodOutput` is `output` when it is a truthy `object` (including
arrays) and `null` otherwise.  A `message` field holding JSON `null`
coalesces onward to the object itself. -/
def pollerExtractionArg (output : Option Json) : Json :=
  match output with
  | some (.obj fields) =>
    match lookupField fields "message" with
    | some .null => .obj fields
    | some v => v
    | none => .obj fields
  | some (.arr items) =>
    -- arrays are truthy objects without a `message` property:
    -- `runpodOutput?.message` is `undefined`, coalescing to the array.
    .arr items
  | some v => v
  | none => .null

/-- Result of one poller `GET`: HTTP status, the store afterwards,
whether the provider status endpoint was called, and the status value
reported to the client (`none` for error responses). -/
structure PollOutcome where
  httpStatus : Nat
  db : Db
  providerCalled : Bool
  reportedStatus : Option OrderStatus
deriving DecidableEq, Repr

/-- The poller `GET` handler (jobs route lines 17-171) in non-mock mode.
`live` is the outcome of `fetchRunpodJobStatus`: `none` models a
network/provider failure, which the route catches and logs, falling
back to stored values.  The reported status string is folded into
`OrderStatus` (the stored column only ever holds the four enum
values). -/
def handleJobStatusGet (rawRunpodId : String)
    (live : Option ProviderStatusResponse) (db : Db) : PollOutcome :=
  let runpodId := jsTrim rawRunpodId
  if runpodId = "" then
    ⟨400, db, false, none⟩
  else
    -- SELECT ... FROM jobs j INNER JOIN orders o ON o.id = j.order_id
    --   WHERE j.runpod_id = $1 LIMIT 1
    let joined :=
      db.jobs.filterMap fun j =>
        (db.orders.find? fun o => o.id = j.orderId).map fun o => (j, o)
    match joined.find? fun jo => jo.1.runpodId = runpodId with
    | none => ⟨404, db, false, none⟩
    | some (j, o) =>
      let resolved :=
        if o.status ≠ .SUCCEEDED then
          match live with
          | some resp =>
            let mapped := mapRunpodStatusToOrderStatus resp.status
            let resolvedStatus :=
              match mapped with
              | some m => if o.status = .PROCESSING then m else o.status
              | none => o.status
            let realtime := extractRunpodOutputUrls (pollerExtractionArg resp.output)
            (resolvedStatus,
              realtime.1 <|> j.outputImageUrl,
              realtime.2 <|> j.outputVideoUrl, true)
          | none =>
            -- fetch threw: caught and logged, stored values stand.
            (o.status, j.outputImageUrl, j.outputVideoUrl, true)
        else
          (o.status, j.outputImageUrl, j.outputVideoUrl, false)
      let resolvedStatus := resolved.1
      let resolvedImageUrl := resolved.2.1
      let resolvedVideoUrl := resolved.2.2.1
      let providerCalled := resolved.2.2.2
      -- UPDATE orders SET status=$2 WHERE id=$1 AND status <> $2
      let orders' :=
        if resolvedStatus ≠ o.status then
          db.orders.map fun oo =>
            if oo.id = o.id && oo.status ≠ resolvedStatus then
              { oo with status := resolvedStatus }
            else oo
        else db.orders
      -- UPDATE jobs SET output_image_url = COALESCE($2, output_image_url),
      --   output_video_url = COALESCE($3, output_video_url) WHERE runpod_id=$1
      let jobs' :=
        if resolvedImageUrl ≠ j.outputImageUrl ||
            resolvedVideoUrl ≠ j.outputVideoUrl then
          coalesceJobUpdate runpodId resolvedImageUrl resolvedVideoUrl db.jobs
        else db.jobs
      ⟨200, { db with orders := orders', jobs := jobs' }, providerCalled,
        some resolvedStatus⟩

/-! ## Shopify webhook (`src/app/api/webhooks/shopify/route.ts`, `POST`) -/

/-- The request-level inputs of the Shopify webhook handler, at the
boundary the embedding draws after transport decoding:

* `hmacHeader` / `eventIdHeader` / `topicHeader` / `hasBody` — the raw
  header and body presence checks;
* `hmacValid` — the result of `verifyShopifyHmac(rawBody, hmac)`
  (HMAC-SHA256 with constant-time compare, a crypto primitive applied to
  the raw bytes, abstracted as its boolean outcome);
* `payloadOrderId` — `String(payload.id)` when `payload.id` is a string
  or number, `none` otherwise;
* `payloadImageUrl` — the result of `extractImageUrl(payload)`: the
  first https-parsable line-item image candidate, `none` when the
  function throws;
* `payloadStyle` — `extractStyle(payload)` (defaults to `"default"`);
* `newOrderId` — the fresh `formatOrderId()` value used when no order
  with this Shopify id exists yet. -/
structure ShopifyRequest where
  hmacHeader : Option String
  eventIdHeader : Option String
  topicHeader : Option String
  hasBody : Bool
  hmacValid : Bool
  payloadOrderId : Option String
  payloadImageUrl : Option String
  payloadStyle : String
  newOrderId : String
deriving Inhabited

/-- Result of one Shopify-webhook `POST`: HTTP status, duplicate flag in
the acknowledgement, the store afterwards, whether the
`INSERT INTO orders ... ON CONFLICT DO UPDATE` ran, and the async
RunPod dispatch that was scheduled (`orderId`, fire-and-forget). -/
structure ShopifyOutcome where
  httpStatus : Nat
  duplicate : Bool
  db : Db
  orderUpsertRan : Bool
  scheduledDispatch : Option String
deriving DecidableEq, Repr

/-- The Shopify webhook `POST` handler (shopify route lines 240-330),
with the feature flag and mock-skip condition as booleans
(`isShopifyEnabled()`, `shouldSkipInMockMode()`).  The event ledger
insert (`ON CONFLICT (event_id) DO NOTHING RETURNING event_id`) returns
no row exactly when the event id is already present, in which case the
delivery is acknowledged as a duplicate before any order access. -/
def handleShopifyWebhook (shopifyEnabled skipInMockMode : Bool)
    (req : ShopifyRequest) (db : Db) : ShopifyOutcome :=
  if !shopifyEnabled then
    ⟨200, false, db, false, none⟩
  else if skipInMockMode then
    ⟨200, false, db, false, none⟩
  else
    match req.hmacHeader with
    | none => ⟨401, false, db, false, none⟩
    | some _ =>
      match req.eventIdHeader with
      | none => ⟨400, false, db, false, none⟩
      | some eventId =>
        let topic := req.topicHeader.getD "unknown"
        if !req.hasBody then
          ⟨400, false, db, false, none⟩
        else if !req.hmacValid then
          ⟨401, false, db, false, none⟩
        else if db.webhookEvents.any fun ev => ev.1 = eventId then
          ⟨200, true, db, false, none⟩
        else
          let db1 := { db with webhookEvents := db.webhookEvents ++ [(eventId, topic)] }
          match req.payloadOrderId with
          | none => ⟨400, false, db1, false, none⟩
          | some shopifyOrderId =>
            match req.payloadImageUrl with
            | none =>
              -- `extractImageUrl` throws → caught → 500; the event row stays.
              ⟨500, false, db1, false, none⟩
            | some imageUrl =>
              let style := req.payloadStyle
              -- INSERT INTO orders ... ON CONFLICT (shopify_order_id)
              --   DO UPDATE SET image_url = ..., style = ... RETURNING id
              let existing := db1.orders.find? fun o =>
                o.shopifyOrderId = shopifyOrderId
              match existing with
              | some row =>
                let orders' := db1.orders.map fun o =>
                  if o.shopifyOrderId = shopifyOrderId then
                    { o with imageUrl := imageUrl, style := style }
                  else o
                ⟨200, false, { db1 with orders := orders' }, true, some row.id⟩
              | none =>
                let orders' := db1.orders ++
                  [⟨req.newOrderId, shopifyOrderId, imageUrl, style, .PENDING⟩]
                ⟨200, false, { db1 with orders := orders' }, true,
                  some req.newOrderId⟩

/-! ## Mock job store (`src/lib/poc-mock-store.ts`) -/

inductive MockJobStatus where
  | PROCESSING
  | SUCCEEDED
  | FAILED
deriving DecidableEq, Repr

structure MockJobRecord where
  runpodId : String
  orderId : String
  status : MockJobStatus
  sourceImageUrl : String
  outputImageUrl : Option String
  outputVideoUrl : Option String
  style : String
  seed : Nat
  createdAt : Nat
  updatedAt : Nat
  expiresAt : Nat
deriving DecidableEq, Repr

/-- `cleanupExpiredRecords` on the jobs map: drop records with
`expiresAt <= now`. -/
def cleanupExpiredJobs (now : Nat) (jobs : List MockJobRecord) :
    List MockJobRecord :=
  jobs.filter fun j => !(j.expiresAt ≤ now)

/-- `markMockJobSucceeded` (`src/lib/poc-mock-store.ts` lines 134-157):
after the TTL sweep, the existing record (if any) is replaced by one
with status `SUCCEEDED` and the output fields set to the incoming
values as given — including `null`.  Returns the updated map and the
function's return value. -/
def markMockJobSucceeded (now ttlMs : Nat) (runpodId : String)
    (outputImageUrl outputVideoUrl : Option String)
    (jobs : List MockJobRecord) :
    List MockJobRecord × Option MockJobRecord :=
  let jobs := cleanupExpiredJobs now jobs
  match jobs.find? fun j => j.runpodId = runpodId with
  | none => (jobs, none)
  | some existing =>
    let next : MockJobRecord :=
      { existing with
        status := .SUCCEEDED
        outputImageUrl := outputImageUrl
        outputVideoUrl := outputVideoUrl
        updatedAt := now
        expiresAt := now + ttlMs }
    (jobs.map fun j => if j.runpodId = runpodId then next else j, some next)

/-! ## Shared lemmas -/

theorem utf8CharSize_pos (c : Char) : 0 < utf8CharSize c := by
  unfold utf8CharSize
  split_ifs <;> omega

theorem utf8Len_ne_zero {s : String} (h : s ≠ "") : utf8Len s ≠ 0 := by
  obtain ⟨data⟩ := s
  cases data with
  | nil => exact absurd rfl h
  | cons c rest =>
    have := utf8CharSize_pos c
    simp only [utf8Len, List.map_cons, List.sum_cons]
    omega

/-- The configured secret always passes its own verification. -/
theorem verifyRunpodWebhookToken_self {secret : String} (h : secret ≠ "") :
    verifyRunpodWebhookToken secret secret = true := by
  unfold verifyRunpodWebhookToken
  simp [utf8Len_ne_zero h]

theorem head?_filter_eq_find? {α : Type} (p : α → Bool) (l : List α) :
    (l.filter p).head? = l.find? p := by
  induction l with
  | nil => rfl
  | cons x xs ih =>
    by_cases hx : p x <;>
      simp [List.filter_cons, List.find?_cons, hx, ih]

/-- The COALESCE update touches neither `runpod_id` nor `order_id`, so
the `RETURNING order_id` row list is that of the pre-update rows. -/
theorem coalesceJobUpdate_ids (rid : String) (iu vu : Option String)
    (jobs : List JobRow) :
    (((coalesceJobUpdate rid iu vu jobs).filter fun j =>
        j.runpodId = rid).map (·.orderId)) =
      ((jobs.filter fun j => j.runpodId = rid).map (·.orderId)) := by
  induction jobs with
  | nil => rfl
  | cons j rest ih =>
    by_cases hj : j.runpodId = rid <;>
      simp [coalesceJobUpdate, List.filter_cons, hj] <;>
      simpa [coalesceJobUpdate] using ih

/-- When a valid failure-status callback arrives, the webhook handler
runs exactly the FAILED transition. -/
theorem handleRunpodWebhook_dispatch_failed (secret : String)
    (enabled : Bool) (token : Option String)
    (payload : RunpodWebhookPayload) (db : Db) (rid : String)
    (hsec : secret ≠ "")
    (hver : verifyRunpodWebhookToken secret (token.getD "") = true)
    (hid : extractRunpodId payload = .ok rid)
    (hst : webhookStatusUpper payload = "FAILED" ∨
      webhookStatusUpper payload = "CANCELLED" ∨
      webhookStatusUpper payload = "TIMED_OUT") :
    handleRunpodWebhook secret enabled token payload db =
      runpodFailedTransition enabled rid db := by
  unfold handleRunpodWebhook
  rcases hst with h | h | h <;> simp [hsec, hver, hid, h]

/-- When a valid COMPLETED callback arrives, the webhook handler runs
exactly the COMPLETED transition on the extracted URLs. -/
theorem handleRunpodWebhook_dispatch_completed (secret : String)
    (enabled : Bool) (token : Option String)
    (payload : RunpodWebhookPayload) (db : Db) (rid : String)
    (hsec : secret ≠ "")
    (hver : verifyRunpodWebhookToken secret (token.getD "") = true)
    (hid : extractRunpodId payload = .ok rid)
    (hst : webhookStatusUpper payload = "COMPLETED") :
    handleRunpodWebhook secret enabled token payload db =
      runpodCompletedTransition enabled rid
        (extractRunpodOutputUrls (outputMessageField payload.output)).1
        (extractRunpodOutputUrls (outputMessageField payload.output)).2 db := by
  unfold handleRunpodWebhook
  simp [hsec, hver, hid, hst]

/-- The failure transition marks every order joined to the job FAILED,
regardless of its current status. -/
theorem runpodFailedTransition_sets_failed (enabled : Bool) (rid : String)
    (db : Db) (o : OrderRow) (ho : o ∈ db.orders) (j : JobRow)
    (hj : j ∈ db.jobs) (hjo : j.orderId = o.id) (hjr : j.runpodId = rid) :
    ∃ o' ∈ (runpodFailedTransition enabled rid db).db.orders,
      o'.id = o.id ∧ o'.status = .FAILED := by
  have hmatched :
      (db.jobs.any fun jj => jj.orderId = o.id && jj.runpodId = rid) = true :=
    List.any_eq_true.mpr ⟨j, hj, by simp [hjo, hjr]⟩
  refine ⟨{ o with status := .FAILED }, ?_, rfl, rfl⟩
  unfold runpodFailedTransition
  exact List.mem_map.mpr ⟨o, ho, by simp [hmatched]⟩

/-- The COMPLETED transition marks every order whose id equals the
job's `order_id` SUCCEEDED, regardless of its current status. -/
theorem runpodCompletedTransition_sets_succeeded (enabled : Bool)
    (rid : String) (iu vu : Option String) (db : Db) (j : JobRow)
    (hfind : db.jobs.find? (fun jj => jj.runpodId = rid) = some j)
    (hoid : j.orderId ≠ "") (o : OrderRow) (ho : o ∈ db.orders)
    (hid : o.id = j.orderId) :
    ∃ o' ∈ (runpodCompletedTransition enabled rid iu vu db).db.orders,
      o'.id = o.id ∧ o'.status = .SUCCEEDED := by
  have hhead :
      ((((coalesceJobUpdate rid iu vu db.jobs).filter fun jj =>
          jj.runpodId = rid).map (·.orderId))).head? = some j.orderId := by
    rw [coalesceJobUpdate_ids, List.head?_map, head?_filter_eq_find?, hfind]
    rfl
  simp only [runpodCompletedTransition]
  rw [hhead]
  simp only [hoid, if_false]
  refine ⟨{ o with status := .SUCCEEDED },
    List.mem_map.mpr ⟨o, ho, by simp [hid]⟩, rfl, rfl⟩

/-- A poll never touches the orders table unless the stored status is
PROCESSING. -/
theorem poller_orders_unchanged (rawRunpodId : String)
    (live : Option ProviderStatusResponse) (db : Db) (j : JobRow)
    (o : OrderRow)
    (hfind : (db.jobs.filterMap fun jj =>
        (db.orders.find? fun oo => oo.id = jj.orderId).map fun oo =>
          (jj, oo)).find?
        (fun jo => jo.1.runpodId = jsTrim rawRunpodId) = some (j, o))
    (hterm : o.status ≠ .PROCESSING) :
    (handleJobStatusGet rawRunpodId live db).db.orders = db.orders := by
  by_cases hempty : jsTrim rawRunpodId = ""
  · simp [handleJobStatusGet, hempty]
  · by_cases hsucc : o.status = .SUCCEEDED
    · simp only [handleJobStatusGet, hempty, if_false, hfind]
      simp [hsucc]
    · cases live with
      | none =>
        simp only [handleJobStatusGet, hempty, if_false, hfind]
        simp [hsucc]
      | some resp =>
        simp only [handleJobStatusGet, hempty, if_false, hfind]
        simp [hsucc, hterm]
        intro hcontra
        exact absurd
          (by cases mapRunpodStatusToOrderStatus resp.status <;> rfl) hcontra

/-- A stored SUCCEEDED order short-circuits the poll: no provider call,
no store change at all. -/
theorem poller_succeeded_untouched (rawRunpodId : String)
    (live : Option ProviderStatusResponse) (db : Db) (j : JobRow)
    (o : OrderRow)
    (hfind : (db.jobs.filterMap fun jj =>
        (db.orders.find? fun oo => oo.id = jj.orderId).map fun oo =>
          (jj, oo)).find?
        (fun jo => jo.1.runpodId = jsTrim rawRunpodId) = some (j, o))
    (hsucc : o.status = .SUCCEEDED) :
    (handleJobStatusGet rawRunpodId live db).providerCalled = false ∧
    (handleJobStatusGet rawRunpodId live db).db = db := by
  by_cases hempty : jsTrim rawRunpodId = ""
  · exact ⟨by simp [handleJobStatusGet, hempty],
      by simp [handleJobStatusGet, hempty]⟩
  · have hout : handleJobStatusGet rawRunpodId live db =
        ⟨200, db, false, some o.status⟩ := by
      simp only [handleJobStatusGet, hempty, if_false, hfind, hsucc]
      simp
    rw [hout]
    exact ⟨rfl, rfl⟩

/-! ## Claims -/

/-- C9: Seed resolution is the identity on valid seeds and range-bounded
otherwise: every caller-supplied non-negative safe integer — in
particular every seed in `[0, 2^31)` — is returned unchanged, and an
absent or invalid seed resolves to a value in `[0, 2^31 - 1)`. -/
theorem claim_C9_normalizeSeed (entropy : Nat) :
    (∀ s : Int, isSafeInteger s = true → 0 ≤ s →
      normalizeSeed (some s) entropy = s) ∧
    (∀ s : Int, 0 ≤ s → s < 2 ^ 31 → normalizeSeed (some s) entropy = s) ∧
    (0 ≤ normalizeSeed none entropy ∧
      normalizeSeed none entropy < 2 ^ 31 - 1) ∧
    (∀ s : Int, ¬(isSafeInteger s = true ∧ 0 ≤ s) →
      0 ≤ normalizeSeed (some s) entropy ∧
      normalizeSeed (some s) entropy < 2 ^ 31 - 1) := by
  have hmod : entropy % 2147483647 < 2147483647 := Nat.mod_lt _ (by norm_num)
  have hpow : (2 : Int) ^ 31 - 1 = 2147483647 := by norm_num
  have hbounds : 0 ≤ ((randomInt 0 2147483647 entropy : Nat) : Int) ∧
      ((randomInt 0 2147483647 entropy : Nat) : Int) < 2 ^ 31 - 1 := by
    refine ⟨Int.ofNat_nonneg _, ?_⟩
    rw [hpow]
    simp only [randomInt, Nat.zero_add]
    exact_mod_cast hmod
  have hid : ∀ s : Int, isSafeInteger s = true → 0 ≤ s →
      normalizeSeed (some s) entropy = s := by
    intro s hs hnn
    have hge : s ≥ 0 := hnn
    simp [normalizeSeed, hs, hge]
  refine ⟨hid, ?_, ?_, ?_⟩
  · intro s hnn hlt
    apply hid _ _ hnn
    simp only [isSafeInteger, decide_eq_true_eq]
    omega
  · simpa [normalizeSeed] using hbounds
  · intro s hbad
    have hcond : (isSafeInteger s && decide (s ≥ 0)) = false := by
      rw [Bool.eq_false_iff]
      intro hc
      simp only [Bool.and_eq_true, decide_eq_true_eq, ge_iff_le] at hc
      exact hbad ⟨hc.1, hc.2⟩
    simpa [normalizeSeed, hcond] using hbounds

/-- Witness for C9 at concrete inputs: the in-range seed `123` is kept,
and both the absent-seed and the negative-seed fallbacks land in
`[0, 2^31 - 1)`. -/
theorem claim_C9_normalizeSeed_witness :
    normalizeSeed (some 123) 0 = 123 ∧
    normalizeSeed none 5 < 2 ^ 31 - 1 ∧
    normalizeSeed (some (-7)) 5 < 2 ^ 31 - 1 :=
  ⟨(claim_C9_normalizeSeed 0).2.1 123 (by decide) (by decide),
    (claim_C9_normalizeSeed 5).2.2.1.2,
    ((claim_C9_normalizeSeed 5).2.2.2 (-7) (by decide)).2⟩

/-- C10: when the webhook/poll payload's `message` is itself a string
accepted as a direct asset reference (absolute http(s) URL or base64
data URI), `extractRunpodOutputUrls` reports it as both the image URL
and the video URL — the keyed search accepts a direct string match
before any key filtering, with no file-extension check. -/
theorem claim_C10_direct_string_both_urls (s u : String)
    (h : tryAssetUrl (Json.str s) = some u) :
    extractRunpodOutputUrls (Json.str s) = (some u, some u) := by
  have hfind : ∀ pat : String → Bool,
      findFirstAssetUrlByKeys pat (Json.str s) = some u := by
    intro pat
    rw [findFirstAssetUrlByKeys]
    · rw [h]
    · intro x hx; cases hx
    · intro x hx; cases hx
  rw [extractRunpodOutputUrls]
  rw [hfind imageKeyPat, hfind videoKeyPat]
  simp

/-- Witness for C10: a `.png` URL is reported as the video URL as well. -/
theorem claim_C10_direct_string_both_urls_witness :
    extractRunpodOutputUrls (Json.str "https://cdn.example/out.png") =
      (some "https://cdn.example/out.png",
        some "https://cdn.example/out.png") :=
  claim_C10_direct_string_both_urls _ _ (by decide)

/-- C7: a serialized submission whose UTF-8 byte size exceeds the
resolved ceiling makes `submitJob` fail with the transport-switch
message before any provider call, and the ceiling defaults to
`10 * 1024 * 1024` whenever the override is unset, empty, unparsable or
non-positive. -/
theorem claim_C7_request_size_guard (envMax : Option String) (body : String)
    (resp : List (String × Json))
    (hover : (utf8Len body : Int) > resolveRunMaxRequestBytes envMax) :
    (submitRunStage envMax body resp).providerCalled = false ∧
    (submitRunStage envMax body resp).result =
      .error
        (s!"RunPod /run payload is too large ({(utf8Len body : Int)} bytes > {resolveRunMaxRequestBytes envMax}). " ++
          "Reduce image size or set RUNPOD_IMAGE_TRANSPORT=url.") ∧
    (∀ v : Option String,
      (jsTrim (v.getD "") = "" ∨ jsParseInt10 (jsTrim (v.getD "")) = none ∨
        ∃ n, jsParseInt10 (jsTrim (v.getD "")) = some n ∧ n ≤ 0) →
      resolveRunMaxRequestBytes v = 10 * 1024 * 1024) := by
  refine ⟨?_, ?_, ?_⟩
  · simp [submitRunStage, ensureRunRequestSizeLimit, hover]
  · simp [submitRunStage, ensureRunRequestSizeLimit, hover]
  · intro v hv
    rcases hv with hv | hv | ⟨n, hn, hnpos⟩
    · simp [resolveRunMaxRequestBytes, hv]
    · by_cases he : jsTrim (v.getD "") = ""
      · simp [resolveRunMaxRequestBytes, he]
      · simp [resolveRunMaxRequestBytes, he, hv]
    · by_cases he : jsTrim (v.getD "") = ""
      · simp [resolveRunMaxRequestBytes, he]
      · have : ¬ n > 0 := by omega
        simp [resolveRunMaxRequestBytes, he, hn, this]

/-- Witness for C7: with an override ceiling of 5 bytes, a 6-byte body
is rejected without a provider call, and the unset override resolves to
the 10 MiB default. -/
theorem claim_C7_request_size_guard_witness :
    (submitRunStage (some "5") "123456" []).providerCalled = false ∧
    resolveRunMaxRequestBytes none = 10 * 1024 * 1024 :=
  ⟨(claim_C7_request_size_guard (some "5") "123456" [] (by decide)).1,
    (claim_C7_request_size_guard (some "5") "123456" [] (by decide)).2.2 none
      (by decide)⟩

/-- C5: any RunPod webhook request whose token differs from the
configured (necessarily nonempty) shared secret — including a missing
token — is answered 401 with no store mutation and no write-back; a
token of a different UTF-8 byte length is rejected before the
constant-time comparison is ever attempted. -/
theorem claim_C5_webhook_auth (secret : String) (shopifyEnabled : Bool)
    (token : Option String) (payload : RunpodWebhookPayload) (db : Db)
    (hsecret : secret ≠ "") (htok : token.getD "" ≠ secret) :
    handleRunpodWebhook secret shopifyEnabled token payload db =
      ⟨401, db, []⟩ ∧
    (∀ s t : String, utf8Len s ≠ utf8Len t →
      runpodTokenComparisonAttempted s t = false) := by
  constructor
  · have hv : verifyRunpodWebhookToken secret (token.getD "") = false := by
      unfold verifyRunpodWebhookToken
      split
      · rfl
      · simp [htok]
    simp [handleRunpodWebhook, hsecret, hv]
  · intro s t h
    simp [runpodTokenComparisonAttempted, h]

/-- Witness for C5: a request with no token against the secret
`"s3cret"` gets 401 and leaves an example store untouched. -/
theorem claim_C5_webhook_auth_witness :
    handleRunpodWebhook "s3cret" true none
        ⟨none, none, none, none⟩
        ⟨[⟨"o1", "SHOP1", "https://i", "sketch", .PROCESSING⟩],
          [⟨"rp1", "o1", none, none⟩], []⟩ =
      ⟨401,
        ⟨[⟨"o1", "SHOP1", "https://i", "sketch", .PROCESSING⟩],
          [⟨"rp1", "o1", none, none⟩], []⟩, []⟩ :=
  (claim_C5_webhook_auth "s3cret" true none ⟨none, none, none, none⟩
    ⟨[⟨"o1", "SHOP1", "https://i", "sketch", .PROCESSING⟩],
      [⟨"rp1", "o1", none, none⟩], []⟩
    (by decide) (by decide)).1

/-- C8: template resolution falls back only on absence.  The first
candidate is the style-specific file when one is mapped; a present,
parsing first candidate is returned; a present first candidate that
fails to parse is a hard error for every file system — in particular
even when the default template is present and valid — and an absent
first candidate falls back to the default template. -/
theorem claim_C8_template_fallback (style : String)
    (fs : String → FileResult) :
    (∀ t, fs ((resolveWorkflowCandidates style).headD
        DEFAULT_WORKFLOW_FILE_NAME) = .ok t →
      loadWorkflowTemplate fs style = .ok t) ∧
    (∀ e, fs ((resolveWorkflowCandidates style).headD
        DEFAULT_WORKFLOW_FILE_NAME) = .invalid e →
      loadWorkflowTemplate fs style =
        .error
          s!"Invalid or unreadable JSON in {(resolveWorkflowCandidates style).headD DEFAULT_WORKFLOW_FILE_NAME}: {e}") ∧
    (∀ t, fs ((resolveWorkflowCandidates style).headD
        DEFAULT_WORKFLOW_FILE_NAME) = .absent →
      fs DEFAULT_WORKFLOW_FILE_NAME = .ok t →
      loadWorkflowTemplate fs style = .ok t) := by
  have hsplit : resolveWorkflowCandidates style = [DEFAULT_WORKFLOW_FILE_NAME] ∨
      ∃ p, resolveWorkflowCandidates style = [p, DEFAULT_WORKFLOW_FILE_NAME] := by
    cases hpref : preferredWorkflowFile style with
    | none => exact Or.inl (by simp [resolveWorkflowCandidates, hpref])
    | some p =>
      by_cases hpd : p = DEFAULT_WORKFLOW_FILE_NAME
      · exact Or.inl (by simp [resolveWorkflowCandidates, hpref, hpd])
      · exact Or.inr ⟨p, by simp [resolveWorkflowCandidates, hpref, hpd]⟩
  rcases hsplit with hcand | ⟨p, hcand⟩
  · refine ⟨?_, ?_, ?_⟩
    · intro t hok
      simp only [hcand, List.headD_cons] at hok
      simp [loadWorkflowTemplate, hcand, loadFromCandidates, hok]
    · intro e hbad
      simp only [hcand, List.headD_cons] at hbad ⊢
      simp [loadWorkflowTemplate, hcand, loadFromCandidates, hbad]
    · intro t habs hdef
      simp only [hcand, List.headD_cons] at habs
      rw [habs] at hdef
      cases hdef
  · refine ⟨?_, ?_, ?_⟩
    · intro t hok
      simp only [hcand, List.headD_cons] at hok
      simp [loadWorkflowTemplate, hcand, loadFromCandidates, hok]
    · intro e hbad
      simp only [hcand, List.headD_cons] at hbad ⊢
      simp [loadWorkflowTemplate, hcand, loadFromCandidates, hbad]
    · intro t habs hdef
      simp only [hcand, List.headD_cons] at habs
      simp [loadWorkflowTemplate, hcand, loadFromCandidates, habs, hdef]

/-- Witness for C8: for the style `"sketch"` with a present-but-invalid
style template, loading hard-errors even though the default template is
present; with the style template absent, it falls back to the default. -/
theorem claim_C8_template_fallback_witness :
    loadWorkflowTemplate
        (fun f =>
          if f = "workflow_api_sketch.json" then .invalid "bad token"
          else .ok (Json.obj [])) "sketch" =
      .error "Invalid or unreadable JSON in workflow_api_sketch.json: bad token" ∧
    loadWorkflowTemplate
        (fun f =>
          if f = "workflow_api_sketch.json" then .absent
          else .ok (Json.obj [])) "sketch" =
      .ok (Json.obj []) := by
  constructor
  · exact (claim_C8_template_fallback "sketch" _).2.1 "bad token" (by rfl)
  · exact (claim_C8_template_fallback "sketch" _).2.2 (Json.obj [])
      (by rfl) (by rfl)

/-- C2: the poller applies a provider-derived status only when the
stored status is PROCESSING: whenever the joined order's stored status
is PENDING, SUCCEEDED or FAILED, the orders table is unchanged by the
poll — whatever the provider reports — and a stored SUCCEEDED order is
returned without calling the provider and with the whole store
untouched. -/
theorem claim_C2_poller_guard (rawRunpodId : String)
    (live : Option ProviderStatusResponse) (db : Db) (j : JobRow)
    (o : OrderRow)
    (hfind : (db.jobs.filterMap fun jj =>
        (db.orders.find? fun oo => oo.id = jj.orderId).map fun oo =>
          (jj, oo)).find?
        (fun jo => jo.1.runpodId = jsTrim rawRunpodId) = some (j, o))
    (hterm : o.status ≠ .PROCESSING) :
    (handleJobStatusGet rawRunpodId live db).db.orders = db.orders ∧
    (o.status = .SUCCEEDED →
      (handleJobStatusGet rawRunpodId live db).providerCalled = false ∧
      (handleJobStatusGet rawRunpodId live db).db = db) :=
  ⟨poller_orders_unchanged rawRunpodId live db j o hfind hterm,
    fun hsucc => poller_succeeded_untouched rawRunpodId live db j o hfind hsucc⟩

/-- Witness for C2: a FAILED order is not resurrected by a provider
report of COMPLETED, and a SUCCEEDED order short-circuits without a
provider call. -/
theorem claim_C2_poller_guard_witness :
    (handleJobStatusGet "rp1" (some ⟨some (.str "COMPLETED"), none⟩)
        ⟨[⟨"o1", "S", "i", "sketch", .FAILED⟩], [⟨"rp1", "o1", none, none⟩],
          []⟩).db.orders =
      [⟨"o1", "S", "i", "sketch", .FAILED⟩] ∧
    (handleJobStatusGet "rp2" (some ⟨some (.str "FAILED"), none⟩)
        ⟨[⟨"o2", "S", "i", "sketch", .SUCCEEDED⟩],
          [⟨"rp2", "o2", none, none⟩], []⟩).providerCalled = false :=
  ⟨(claim_C2_poller_guard "rp1" (some ⟨some (.str "COMPLETED"), none⟩)
      ⟨[⟨"o1", "S", "i", "sketch", .FAILED⟩], [⟨"rp1", "o1", none, none⟩], []⟩
      ⟨"rp1", "o1", none, none⟩ ⟨"o1", "S", "i", "sketch", .FAILED⟩
      (by decide) (by decide)).1,
    ((claim_C2_poller_guard "rp2" (some ⟨some (.str "FAILED"), none⟩)
      ⟨[⟨"o2", "S", "i", "sketch", .SUCCEEDED⟩], [⟨"rp2", "o2", none, none⟩],
        []⟩
      ⟨"rp2", "o2", none, none⟩ ⟨"o2", "S", "i", "sketch", .SUCCEEDED⟩
      (by decide) (by decide)).2 (by decide)).1⟩

/-- C1 (counterexample): terminal statuses are NOT absorbing across the
whole system — a FAILED webhook callback for a job whose order is
already SUCCEEDED overwrites the stored status with FAILED (the
webhook's UPDATE carries no guard on the current status). -/
theorem claim_C1_counterexample :
    (handleRunpodWebhook "sec" true (some "sec")
        ⟨some (.str "rp1"), none, some (.str "FAILED"), none⟩
        ⟨[⟨"o1", "SHOP1", "https://i", "sketch", .SUCCEEDED⟩],
          [⟨"rp1", "o1", none, none⟩], []⟩).db.orders =
      [⟨"o1", "SHOP1", "https://i", "sketch", .FAILED⟩] := by
  decide

/-- C1 (amended): terminal statuses are absorbing for the status poll —
no poll changes a stored SUCCEEDED or FAILED order status.  Webhook
callbacks are not guarded: a valid failure-status callback sets every
order joined to the job to FAILED, and a valid COMPLETED callback sets
the job's order to SUCCEEDED, in both cases regardless of the stored
terminal status. -/
theorem claim_C1_terminal_absorbing_amended :
    (∀ (rawRunpodId : String) (live : Option ProviderStatusResponse)
        (db : Db) (j : JobRow) (o : OrderRow),
      (db.jobs.filterMap fun jj =>
          (db.orders.find? fun oo => oo.id = jj.orderId).map fun oo =>
            (jj, oo)).find?
          (fun jo => jo.1.runpodId = jsTrim rawRunpodId) = some (j, o) →
      o.status = .SUCCEEDED ∨ o.status = .FAILED →
      (handleJobStatusGet rawRunpodId live db).db.orders = db.orders) ∧
    (∀ (secret : String) (enabled : Bool) (token : Option String)
        (payload : RunpodWebhookPayload) (db : Db) (rid : String)
        (j : JobRow) (o : OrderRow),
      secret ≠ "" → token.getD "" = secret →
      extractRunpodId payload = .ok rid →
      (webhookStatusUpper payload = "FAILED" ∨
        webhookStatusUpper payload = "CANCELLED" ∨
        webhookStatusUpper payload = "TIMED_OUT") →
      o ∈ db.orders → j ∈ db.jobs → j.orderId = o.id → j.runpodId = rid →
      ∃ o' ∈ (handleRunpodWebhook secret enabled token payload db).db.orders,
        o'.id = o.id ∧ o'.status = .FAILED) ∧
    (∀ (secret : String) (enabled : Bool) (token : Option String)
        (payload : RunpodWebhookPayload) (db : Db) (rid : String)
        (j : JobRow) (o : OrderRow),
      secret ≠ "" → token.getD "" = secret →
      extractRunpodId payload = .ok rid →
      webhookStatusUpper payload = "COMPLETED" →
      db.jobs.find? (fun jj => jj.runpodId = rid) = some j →
      j.orderId ≠ "" → o ∈ db.orders → o.id = j.orderId →
      ∃ o' ∈ (handleRunpodWebhook secret enabled token payload db).db.orders,
        o'.id = o.id ∧ o'.status = .SUCCEEDED) := by
  refine ⟨?_, ?_, ?_⟩
  · intro raw live db j o hfind hterm
    apply poller_orders_unchanged raw live db j o hfind
    rcases hterm with h | h <;> simp [h]
  · intro secret enabled token payload db rid j o hsec htok hid hst ho hj hjo hjr
    have hver : verifyRunpodWebhookToken secret (token.getD "") = true := by
      rw [htok]; exact verifyRunpodWebhookToken_self hsec
    rw [handleRunpodWebhook_dispatch_failed secret enabled token payload db rid
      hsec hver hid hst]
    exact runpodFailedTransition_sets_failed enabled rid db o ho j hj hjo hjr
  · intro secret enabled token payload db rid j o hsec htok hid hst hfind hoid
      ho hido
    have hver : verifyRunpodWebhookToken secret (token.getD "") = true := by
      rw [htok]; exact verifyRunpodWebhookToken_self hsec
    rw [handleRunpodWebhook_dispatch_completed secret enabled token payload db
      rid hsec hver hid hst]
    exact runpodCompletedTransition_sets_succeeded enabled rid _ _ db j hfind
      hoid o ho hido

/-- Witness for the amended C1: the overwrite branch applied to the
concrete SUCCEEDED order of the counterexample. -/
theorem claim_C1_terminal_absorbing_amended_witness :
    ∃ o' ∈ (handleRunpodWebhook "sec" true (some "sec")
        ⟨some (.str "rp1"), none, some (.str "FAILED"), none⟩
        ⟨[⟨"o1", "SHOP1", "https://i", "sketch", .SUCCEEDED⟩],
          [⟨"rp1", "o1", none, none⟩], []⟩).db.orders,
      o'.id = "o1" ∧ o'.status = .FAILED :=
  claim_C1_terminal_absorbing_amended.2.1 "sec" true (some "sec")
    ⟨some (.str "rp1"), none, some (.str "FAILED"), none⟩
    ⟨[⟨"o1", "SHOP1", "https://i", "sketch", .SUCCEEDED⟩],
      [⟨"rp1", "o1", none, none⟩], []⟩ "rp1"
    ⟨"rp1", "o1", none, none⟩
    ⟨"o1", "SHOP1", "https://i", "sketch", .SUCCEEDED⟩
    (by decide) (by decide) (by rfl) (Or.inl (by rfl))
    (by decide) (by decide) rfl rfl

theorem option_orElse_idem {α : Type} (a b : Option α) :
    (a <|> (a <|> b)) = (a <|> b) := by
  cases a <;> rfl

theorem map_idem {α : Type} (f : α → α) (hf : ∀ x, f (f x) = f x)
    (l : List α) : (l.map f).map f = l.map f := by
  induction l with
  | nil => rfl
  | cons x xs ih => simp only [List.map_cons, hf x, ih]

/-- Re-running the COALESCE job update with the same incoming values is
a no-op. -/
theorem coalesceJobUpdate_idem (rid : String) (iu vu : Option String)
    (jobs : List JobRow) :
    coalesceJobUpdate rid iu vu (coalesceJobUpdate rid iu vu jobs) =
      coalesceJobUpdate rid iu vu jobs := by
  unfold coalesceJobUpdate
  apply map_idem
  intro j
  by_cases hj : j.runpodId = rid <;> simp [hj, option_orElse_idem]

/-- Replaying the COMPLETED transition on its own result reproduces the
result exactly: rows, response and write-back list are all identical. -/
theorem runpodCompletedTransition_idem (enabled : Bool) (rid : String)
    (iu vu : Option String) (db : Db) :
    runpodCompletedTransition enabled rid iu vu
        (runpodCompletedTransition enabled rid iu vu db).db =
      runpodCompletedTransition enabled rid iu vu db := by
  have hjobs := coalesceJobUpdate_idem rid iu vu db.jobs
  cases hhead : (((coalesceJobUpdate rid iu vu db.jobs).filter fun j =>
      j.runpodId = rid).map (·.orderId)).head? with
  | none =>
    have hr1 : runpodCompletedTransition enabled rid iu vu db =
        ⟨200, { db with jobs := coalesceJobUpdate rid iu vu db.jobs }, []⟩ := by
      simp only [runpodCompletedTransition]
      rw [hhead]
    rw [hr1]
    simp only [runpodCompletedTransition]
    rw [hjobs, hhead]
  | some oid =>
    by_cases hoid : oid = ""
    · have hr1 : runpodCompletedTransition enabled rid iu vu db =
          ⟨500, { db with jobs := coalesceJobUpdate rid iu vu db.jobs },
            []⟩ := by
        simp only [runpodCompletedTransition]
        rw [hhead]
        simp [hoid]
      rw [hr1]
      simp only [runpodCompletedTransition]
      rw [hjobs, hhead]
      simp [hoid]
    · have horders : (db.orders.map fun o =>
          if o.id = oid then { o with status := OrderStatus.SUCCEEDED }
          else o).map (fun o =>
            if o.id = oid then { o with status := OrderStatus.SUCCEEDED }
            else o) = db.orders.map fun o =>
          if o.id = oid then { o with status := OrderStatus.SUCCEEDED }
          else o := by
        apply map_idem
        intro o
        by_cases ho : o.id = oid <;> simp [ho]
      have hr1 : runpodCompletedTransition enabled rid iu vu db =
          ⟨200,
            { db with
              orders := db.orders.map fun o =>
                if o.id = oid then { o with status := OrderStatus.SUCCEEDED }
                else o
              jobs := coalesceJobUpdate rid iu vu db.jobs },
            match ((db.orders.map fun o =>
                if o.id = oid then { o with status := OrderStatus.SUCCEEDED }
                else o).filter fun o => o.id = oid).head? with
            | some row =>
              writeShopifyAiArtMetafields enabled
                ⟨row.shopifyOrderId, "SUCCEEDED", rid, iu, vu⟩
            | none => []⟩ := by
        simp only [runpodCompletedTransition]
        rw [hhead]
        simp [hoid]
      rw [hr1]
      simp only [runpodCompletedTransition]
      rw [hjobs, hhead]
      simp only [hoid, if_false]
      rw [horders]

/-- C3 (counterexample): the same COMPLETED webhook payload handled a
second time still issues a downstream write-back — the metafield
mutation is repeated on every replay rather than being deduplicated. -/
theorem claim_C3_counterexample :
    (handleRunpodWebhook "sec" true (some "sec")
        ⟨some (.str "rp1"), none, some (.str "COMPLETED"), none⟩
        (handleRunpodWebhook "sec" true (some "sec")
          ⟨some (.str "rp1"), none, some (.str "COMPLETED"), none⟩
          ⟨[⟨"o1", "123", "https://i", "sketch", .PROCESSING⟩],
            [⟨"rp1", "o1", none, none⟩], []⟩).db).writebacks =
      [⟨"123", "SUCCEEDED", "rp1", none, none⟩] := by
  decide

/-- C3 (amended): replaying a COMPLETED webhook payload leaves the
Order and Job rows exactly as after the first handling, and the second
handling issues exactly the same write-back again (the write-back is
repeated, not suppressed). -/
theorem claim_C3_replay_idempotent_state (secret : String) (enabled : Bool)
    (token : Option String) (payload : RunpodWebhookPayload) (db : Db)
    (hst : webhookStatusUpper payload = "COMPLETED") :
    (handleRunpodWebhook secret enabled token payload
        (handleRunpodWebhook secret enabled token payload db).db).db =
      (handleRunpodWebhook secret enabled token payload db).db ∧
    (handleRunpodWebhook secret enabled token payload
        (handleRunpodWebhook secret enabled token payload db).db).writebacks =
      (handleRunpodWebhook secret enabled token payload db).writebacks := by
  suffices h : handleRunpodWebhook secret enabled token payload
      (handleRunpodWebhook secret enabled token payload db).db =
      handleRunpodWebhook secret enabled token payload db by
    rw [h]
    exact ⟨rfl, rfl⟩
  by_cases hsec : secret = ""
  · simp [handleRunpodWebhook, hsec]
  · by_cases hver : verifyRunpodWebhookToken secret (token.getD "") = true
    · cases hid : extractRunpodId payload with
      | error e => simp [handleRunpodWebhook, hsec, hver, hid]
      | ok rid =>
        rw [handleRunpodWebhook_dispatch_completed secret enabled token payload
          db rid hsec hver hid hst]
        rw [handleRunpodWebhook_dispatch_completed secret enabled token payload
          _ rid hsec hver hid hst]
        exact runpodCompletedTransition_idem enabled rid _ _ db
    · have hv : verifyRunpodWebhookToken secret (token.getD "") = false :=
        Bool.eq_false_iff.mpr hver
      simp [handleRunpodWebhook, hsec, hv]

/-- Witness for the amended C3 at the counterexample's concrete input:
rows and write-backs of the replay coincide with the first handling. -/
theorem claim_C3_replay_idempotent_state_witness :
    (handleRunpodWebhook "sec" true (some "sec")
        ⟨some (.str "rp1"), none, some (.str "COMPLETED"), none⟩
        (handleRunpodWebhook "sec" true (some "sec")
          ⟨some (.str "rp1"), none, some (.str "COMPLETED"), none⟩
          ⟨[⟨"o1", "123", "https://i", "sketch", .PROCESSING⟩],
            [⟨"rp1", "o1", none, none⟩], []⟩).db).db =
      (handleRunpodWebhook "sec" true (some "sec")
        ⟨some (.str "rp1"), none, some (.str "COMPLETED"), none⟩
        ⟨[⟨"o1", "123", "https://i", "sketch", .PROCESSING⟩],
          [⟨"rp1", "o1", none, none⟩], []⟩).db :=
  (claim_C3_replay_idempotent_state "sec" true (some "sec")
    ⟨some (.str "rp1"), none, some (.str "COMPLETED"), none⟩
    ⟨[⟨"o1", "123", "https://i", "sketch", .PROCESSING⟩],
      [⟨"rp1", "o1", none, none⟩], []⟩ (by rfl)).1

/-- C4 (counterexample): the mock store's success transition does NOT
have fill-never-clear semantics — marking a job succeeded with a null
incoming image URL replaces an already-set `outputImageUrl` with null
(`markMockJobSucceeded` assigns the incoming values unconditionally). -/
theorem claim_C4_counterexample :
    (markMockJobSucceeded 10 5 "rp1" none none
        [⟨"rp1", "o1", .PROCESSING, "https://s", some "https://u", none,
          "sketch", 1, 0, 0, 100⟩]).1 =
      [⟨"rp1", "o1", .SUCCEEDED, "https://s", none, none, "sketch", 1, 0,
        10, 15⟩] := by
  decide

/-- C4 (amended): fill-never-clear holds for the webhook ingestion
update and the poller persistence update (both run the same COALESCE
statement, so a null incoming value leaves every stored output URL
untouched); the mock store's success transition instead overwrites both
output fields with the incoming values unconditionally, clearing them
when the incoming value is null. -/
theorem claim_C4_fill_never_clear_amended :
    (∀ (rid : String) (vu : Option String) (jobs : List JobRow),
      (coalesceJobUpdate rid none vu jobs).map (·.outputImageUrl) =
        jobs.map (·.outputImageUrl)) ∧
    (∀ (rid : String) (iu : Option String) (jobs : List JobRow),
      (coalesceJobUpdate rid iu none jobs).map (·.outputVideoUrl) =
        jobs.map (·.outputVideoUrl)) ∧
    (∀ (now ttl : Nat) (rid : String) (vu : Option String)
        (jobs : List MockJobRecord) (rec : MockJobRecord),
      (markMockJobSucceeded now ttl rid none vu jobs).2 = some rec →
      rec.outputImageUrl = none) := by
  refine ⟨?_, ?_, ?_⟩
  · intro rid vu jobs
    induction jobs with
    | nil => rfl
    | cons j rest ih =>
      by_cases hj : j.runpodId = rid <;>
        simp [coalesceJobUpdate, hj] <;>
        simpa [coalesceJobUpdate] using ih
  · intro rid iu jobs
    induction jobs with
    | nil => rfl
    | cons j rest ih =>
      by_cases hj : j.runpodId = rid <;>
        simp [coalesceJobUpdate, hj] <;>
        simpa [coalesceJobUpdate] using ih
  · intro now ttl rid vu jobs rec h
    simp only [markMockJobSucceeded] at h
    cases hfind : (cleanupExpiredJobs now jobs).find?
        (fun j => j.runpodId = rid) with
    | none =>
      rw [hfind] at h
      cases h
    | some existing =>
      rw [hfind] at h
      simp only [Option.some.injEq] at h
      rw [← h]

/-- Witness for the amended C4: a null incoming image URL leaves a set
`outputImageUrl` untouched through the COALESCE update, while the mock
transition's returned record has it cleared. -/
theorem claim_C4_fill_never_clear_amended_witness :
    (coalesceJobUpdate "rp1" none (some "https://v")
        [⟨"rp1", "o1", some "https://u", none⟩]).map (·.outputImageUrl) =
      [some "https://u"] ∧
    (⟨"rp1", "o1", .SUCCEEDED, "https://s", none, none, "sketch", 1, 0,
        10, 15⟩ : MockJobRecord).outputImageUrl = none :=
  ⟨claim_C4_fill_never_clear_amended.1 "rp1" (some "https://v")
      [⟨"rp1", "o1", some "https://u", none⟩],
    claim_C4_fill_never_clear_amended.2.2 10 5 "rp1" none
      [⟨"rp1", "o1", .PROCESSING, "https://s", some "https://u", none,
        "sketch", 1, 0, 0, 100⟩]
      ⟨"rp1", "o1", .SUCCEEDED, "https://s", none, none, "sketch", 1, 0,
        10, 15⟩ (by rfl)⟩

/-- C6: downstream webhook deliveries are deduplicated by event id.
For a pair of valid deliveries carrying the same, previously unseen
event id, the first performs the Order create/update and the second is
acknowledged as a duplicate, performs no Order upsert, and leaves the
store exactly as the first left it. -/
theorem claim_C6_event_dedup (r1 r2 : ShopifyRequest) (db : Db)
    (eventId : String)
    (h1e : r1.eventIdHeader = some eventId)
    (h2e : r2.eventIdHeader = some eventId)
    (h1h : r1.hmacHeader.isSome = true) (h2h : r2.hmacHeader.isSome = true)
    (h1b : r1.hasBody = true) (h2b : r2.hasBody = true)
    (h1v : r1.hmacValid = true) (h2v : r2.hmacValid = true)
    (h1o : r1.payloadOrderId.isSome = true)
    (h1i : r1.payloadImageUrl.isSome = true)
    (hfresh : (db.webhookEvents.any fun ev => ev.1 = eventId) = false) :
    (handleShopifyWebhook true false r1 db).orderUpsertRan = true ∧
    (handleShopifyWebhook true false r2
        (handleShopifyWebhook true false r1 db).db).duplicate = true ∧
    (handleShopifyWebhook true false r2
        (handleShopifyWebhook true false r1 db).db).orderUpsertRan = false ∧
    (handleShopifyWebhook true false r2
        (handleShopifyWebhook true false r1 db).db).db =
      (handleShopifyWebhook true false r1 db).db := by
  obtain ⟨hm1, hhm1⟩ := Option.isSome_iff_exists.mp h1h
  obtain ⟨hm2, hhm2⟩ := Option.isSome_iff_exists.mp h2h
  obtain ⟨oid1, hoid1⟩ := Option.isSome_iff_exists.mp h1o
  obtain ⟨url1, hurl1⟩ := Option.isSome_iff_exists.mp h1i
  have h1 : (handleShopifyWebhook true false r1 db).orderUpsertRan = true ∧
      (handleShopifyWebhook true false r1 db).db.webhookEvents =
        db.webhookEvents ++ [(eventId, r1.topicHeader.getD "unknown")] := by
    simp only [handleShopifyWebhook, hhm1, h1e, h1b, h1v, hfresh, hoid1,
      hurl1]
    cases hex : db.orders.find? fun o => o.shopifyOrderId = oid1 <;>
      simp [hex]
  have hany2 : (((handleShopifyWebhook true false r1 db).db.webhookEvents).any
      fun ev => ev.1 = eventId) = true := by
    rw [h1.2]
    simp
  have h2 : ∀ db' : Db, ((db'.webhookEvents.any fun ev => ev.1 = eventId) =
      true) → handleShopifyWebhook true false r2 db' =
      ⟨200, true, db', false, none⟩ := by
    intro db' hany
    simp only [handleShopifyWebhook, hhm2, h2e, h2b, h2v]
    simp [hany]
  have h2' := h2 _ hany2
  exact ⟨h1.1, by rw [h2'], by rw [h2'], by rw [h2']⟩

/-- Witness for C6 with two concrete identical deliveries against an
empty store. -/
theorem claim_C6_event_dedup_witness :
    (handleShopifyWebhook true false
        ⟨some "hm", some "ev1", some "orders/create", true, true,
          some "123", some "https://i.example/a.png", "sketch",
          "ORD-20260101-AAAA"⟩ ⟨[], [], []⟩).orderUpsertRan = true ∧
    (handleShopifyWebhook true false
        ⟨some "hm", some "ev1", some "orders/create", true, true,
          some "123", some "https://i.example/a.png", "sketch",
          "ORD-20260101-AAAA"⟩
        (handleShopifyWebhook true false
          ⟨some "hm", some "ev1", some "orders/create", true, true,
            some "123", some "https://i.example/a.png", "sketch",
            "ORD-20260101-AAAA"⟩ ⟨[], [], []⟩).db).duplicate = true :=
  ⟨(claim_C6_event_dedup
      ⟨some "hm", some "ev1", some "orders/create", true, true, some "123",
        some "https://i.example/a.png", "sketch", "ORD-20260101-AAAA"⟩
      ⟨some "hm", some "ev1", some "orders/create", true, true, some "123",
        some "https://i.example/a.png", "sketch", "ORD-20260101-AAAA"⟩
      ⟨[], [], []⟩ "ev1" rfl rfl rfl rfl rfl rfl rfl rfl rfl rfl rfl).1,
    (claim_C6_event_dedup
      ⟨some "hm", some "ev1", some "orders/create", true, true, some "123",
        some "https://i.example/a.png", "sketch", "ORD-20260101-AAAA"⟩
      ⟨some "hm", some "ev1", some "orders/create", true, true, some "123",
        some "https://i.example/a.png", "sketch", "ORD-20260101-AAAA"⟩
      ⟨[], [], []⟩ "ev1" rfl rfl rfl rfl rfl rfl rfl rfl rfl rfl rfl).2.1⟩

end AiArt
